import Mathlib

/-!
Verification of the core mechanisms of `src/mymcp.py`: environment-based
configuration, the session-aware GraphQL client (`GraphQLClient`), the
asynchronous job watcher (`_check_state_machine`), the tenant/quota join
(`list_tenants`), and the confirmation guard of `destroy_tenant`.

Machine integers do not arise: Python integers are unbounded, so they are
modelled by `Int`/`Nat`. Time (`time.time()`) is modelled as a `Nat` number
of seconds. Network effects are modelled by passing the remote responses as
explicit arguments and returning the emitted events.
-/

/- ### Configuration (`AppConfig`, `AppConfig.from_env`) -/

/-- Mirrors the `AppConfig` dataclass: username, password, url, verify_tls. -/
structure AppConfig where
  username : String
  password : String
  url : String
  verify_tls : Bool := true
deriving Repr, DecidableEq

/-- The environment, restricted to the four variables `from_env` reads.
`none` models an unset variable. -/
structure Env where
  username : Option String
  password : Option String
  url : Option String
  tlsverify : Option String
deriving Repr, DecidableEq

/-- Model of the Python str.lower method, modelled over the character list (the values
the code compares against are ASCII, where `Char.toLower` agrees with
Python). -/
def pyLower (s : String) : String := ⟨s.data.map Char.toLower⟩

/-- Mirrors `os.getenv("TLSVERIFY", "true").lower() in ("true", "1")`. -/
def verifyTlsOfEnv (tlsverify : Option String) : Bool :=
  pyLower (tlsverify.getD "true") ∈ (["true", "1"] : List String)

/-- Mirrors `AppConfig.from_env`: `os.environ[k]` raises `KeyError` on a
missing required variable (wrapped into `EnvironmentError` naming it);
`TLSVERIFY` is optional with default `"true"`. Python evaluates the keyword
arguments in order `USERNAME`, `PASSWORD`, `URL`, so the first missing one
is the one named. -/
def AppConfig.from_env (e : Env) : Except String AppConfig :=
  match e.username with
  | none => .error "A required environment variable is missing: \x27USERNAME\x27"
  | some u =>
    match e.password with
    | none => .error "A required environment variable is missing: \x27PASSWORD\x27"
    | some p =>
      match e.url with
      | none => .error "A required environment variable is missing: \x27URL\x27"
      | some url =>
        .ok { username := u, password := p, url := url,
              verify_tls := verifyTlsOfEnv e.tlsverify }

/- ### The job watcher (`_check_state_machine`) -/

/-- The fields selected by the `CheckStateMachine` query. -/
structure CmdSummary where
  name : String
  state : String
  failureReason : Option String
deriving Repr, DecidableEq

/-- The `stateMachine` level of a `CheckStateMachine` response. -/
structure StateMachineField where
  getCmdSummary : CmdSummary
deriving Repr, DecidableEq

/-- A full `CheckStateMachine` response: `result["stateMachine"]["getCmdSummary"]`. -/
structure PollResult where
  stateMachine : StateMachineField
deriving Repr, DecidableEq

/-- The terminal-state list of `_check_state_machine`, in source order. -/
def terminalStates : List String := ["failed", "canceled", "skipped", "completed"]

/-- The progress notification `_check_state_machine` emits for a
non-terminal poll: the job name followed by " is still ongoing.". -/
def ongoingMessage (r : PollResult) : String :=
  r.stateMachine.getCmdSummary.name ++ " is still ongoing."

/-- Mirrors the `_check_state_machine` loop, driven by the list of
successive poll responses the server returns. Yields the returned
response, the number of status polls issued, and the list of emitted
progress notifications; `none` models the loop still polling after the
provided responses are exhausted (the loop has no iteration bound). -/
def check_state_machine : List PollResult → Option (PollResult × Nat × List String)
  | [] => none
  | r :: rest =>
    if r.stateMachine.getCmdSummary.state ∈ terminalStates then
      some (r, 1, [])
    else
      match check_state_machine rest with
      | none => none
      | some (res, polls, msgs) => some (res, polls + 1, ongoingMessage r :: msgs)

/- ### Quota structures and the tenant/quota join (`list_tenants`) -/

/-- Mirrors the `Quota` dataclass: six integer counters defaulting to 0. -/
structure Quota where
  inodeHard : Int := 0
  inodeSoft : Int := 0
  kbyteHard : Int := 0
  kbyteSoft : Int := 0
  kbyteUsed : Int := 0
  inodeUsed : Int := 0
deriving Repr, DecidableEq

/-- A tenant record as selected by `LIST_TENANTS_QUERY` (the fields other
than `idOffset` are carried through the join untouched; the nested
`fileset`/`nids` selections are summarised as opaque strings since the
join never inspects them). -/
structure Tenant where
  name : String
  fileset : String
  idOffset : Int
  nids : List String
deriving Repr, DecidableEq

/-- The `quota{hard soft granted}` sub-record of a quota listing. -/
structure QuotaTriple where
  hard : Int
  soft : Int
  granted : Int
deriving Repr, DecidableEq

/-- One element of the `kbytes` / `inodes` lists: a per-project id and its
quota triple. -/
structure ProjIdQuota where
  id : Int
  quota : QuotaTriple
deriving Repr, DecidableEq

/-- The `projids` level of a quota list entry. -/
structure ProjIds where
  kbytes : List ProjIdQuota
  inodes : List ProjIdQuota
deriving Repr, DecidableEq

/-- The `quotas` level of a quota list entry. -/
structure QuotasField where
  projids : ProjIds
deriving Repr, DecidableEq

/-- One element of `quota["quota"]["list"]`. -/
structure QuotaListEntry where
  id : Int
  quotas : QuotasField
deriving Repr, DecidableEq

/-- The key set of the `tenant_quotas` dict: one key per tenant `idOffset`. -/
def tenantKeys (ts : List Tenant) : List Int := ts.map (·.idOffset)

/-- Processing of one `kbytes` element `j`: if `j["id"] in tenant_quotas`,
overwrite the kbyte fields of the stored `Quota` (kbyteUsed takes
`granted`); otherwise leave the dict unchanged. The dict is modelled as a
total function from keys; lookups are only ever made at keys in
`tenantKeys`. -/
def applyKbyte (keys : List Int) (m : Int → Quota) (j : ProjIdQuota) : Int → Quota :=
  if j.id ∈ keys then
    fun k => if k = j.id then
      { m j.id with kbyteHard := j.quota.hard, kbyteSoft := j.quota.soft,
                    kbyteUsed := j.quota.granted }
    else m k
  else m

/-- Processing of one `inodes` element: like `applyKbyte` for the inode
fields (`inodeUsed` takes `granted`). -/
def applyInode (keys : List Int) (m : Int → Quota) (j : ProjIdQuota) : Int → Quota :=
  if j.id ∈ keys then
    fun k => if k = j.id then
      { m j.id with inodeHard := j.quota.hard, inodeSoft := j.quota.soft,
                    inodeUsed := j.quota.granted }
    else m k
  else m

/-- Processing of one quota list entry: all its `kbytes` elements in order,
then all its `inodes` elements in order. -/
def applyEntry (keys : List Int) (m : Int → Quota) (e : QuotaListEntry) : Int → Quota :=
  (e.quotas.projids.inodes).foldl (applyInode keys)
    ((e.quotas.projids.kbytes).foldl (applyKbyte keys) m)

/-- Mirrors the body of `list_tenants`, with the two query responses passed
as arguments: build the idOffset-keyed dict of zero `Quota`s, fold the
quota listing over it, then attach to each tenant (in listing order) the
`Quota` stored under its `idOffset`. -/
def list_tenants (ts : List Tenant) (qs : List QuotaListEntry) : List (Tenant × Quota) :=
  let keys := tenantKeys ts
  let m := qs.foldl (applyEntry keys) (fun _ => {})
  ts.map (fun t => (t, m t.idOffset))

/- ### The session-aware client (`GraphQLClient`) -/

/-- The `HTTPXAsyncTransport` created after a successful login: its URL,
the `Cookie` header value, TLS-verification flag, and per-request timeout
in seconds. -/
structure Transport where
  url : String
  cookieHeader : String
  verify : Bool
  timeout : Nat
deriving Repr, DecidableEq

/-- The mutable state of a `GraphQLClient`: `_session_cookie`,
`_session_expires_at` (seconds; initially 0) and `_transport`. -/
structure ClientState where
  sessionCookie : Option String
  sessionExpiresAt : Nat
  transport : Option Transport
deriving Repr, DecidableEq

/-- A freshly constructed client: no cookie, expiry 0, no transport. -/
def ClientState.fresh : ClientState :=
  { sessionCookie := none, sessionExpiresAt := 0, transport := none }

/-- What the `POST \x7burl\x7d/session` exchange yields: either a transport
error (`httpx.RequestError` while connecting/sending) or an HTTP response
with a status code and the value of the `sessionid` cookie when present.
An issued-but-empty cookie is distinguished from an absent one because
the `if not cookie` check in Python is a truthiness test. -/
inductive LoginOutcome where
  | netError (msg : String)
  | response (status : Nat) (sessionid : Option String)
deriving Repr, DecidableEq

/-- The exception types `_login` can raise, by their Python type:
`httpx.HTTPStatusError` from `resp.raise_for_status()` (carrying the
status), and the builtin `ConnectionError` (carrying the message) used
both for a missing `sessionid` cookie and for wrapped
`httpx.RequestError`s. -/
inductive LoginExc where
  | httpStatusError (status : Nat)
  | connectionError (msg : String)
deriving Repr, DecidableEq

/-- Whether a `LoginExc` is the builtin `ConnectionError` type. -/
def LoginExc.isConnectionError : LoginExc → Bool
  | .connectionError _ => true
  | .httpStatusError _ => false

/-- Mirrors `resp.cookies.get("sessionid")` followed by `if not cookie`: the cookie
is falsy when absent or the empty string. -/
def cookieFalsy : Option String → Bool
  | none => true
  | some s => s.isEmpty

/-- Mirrors `resp.raise_for_status()`: it raises `httpx.HTTPStatusError` exactly for
4xx/5xx status codes. -/
def statusIsError (status : Nat) : Bool := 400 ≤ status

/-- Mirrors `GraphQLClient._login` at time `now` with the remote exchange
resolving to `outcome`. On success it returns the client state after the
three assignments: cookie stored, `_session_expires_at = now + 3600`, and
a fresh transport bound to the cookie header
`"sessionid=\x7bcookie\x7d"` with the configured TLS flag and a 30 s
timeout. Every raise happens before the first assignment, so on error the
prior state is untouched (the function returns only the exception). -/
def GraphQLClient.login (cfg : AppConfig) (now : Nat) (outcome : LoginOutcome) :
    Except LoginExc ClientState :=
  match outcome with
  | .netError msg =>
    .error (.connectionError ("Could not connect to the authentication endpoint: " ++ msg))
  | .response status sessionid =>
    if statusIsError status then
      .error (.httpStatusError status)
    else if cookieFalsy sessionid then
      .error (.connectionError "Login failed: \x27sessionid\x27 cookie not found in response.")
    else
      let cookie := sessionid.getD ""
      .ok { sessionCookie := some cookie,
            sessionExpiresAt := now + 3600,
            transport := some { url := cfg.url ++ "/graphql",
                                cookieHeader := "sessionid=" ++ cookie,
                                verify := cfg.verify_tls,
                                timeout := 30 } }

/-- The `_login` call as a state transition: on an exception the client state is
left unchanged and the exception propagates. -/
def GraphQLClient.loginStep (cfg : AppConfig) (now : Nat) (st : ClientState)
    (outcome : LoginOutcome) : ClientState × Option LoginExc :=
  match GraphQLClient.login cfg now outcome with
  | .ok st2 => (st2, none)
  | .error e => (st, some e)

/-- The re-login condition of `execute`:
`time.time() >= self._session_expires_at or self._transport is None`. -/
def needsLogin (now : Nat) (st : ClientState) : Bool :=
  decide (st.sessionExpiresAt ≤ now) || st.transport.isNone

/-- The network events `execute` produces, in order: a login exchange
and/or the GraphQL operation itself. -/
inductive Event where
  | login
  | operation
deriving Repr, DecidableEq

/-- Mirrors `GraphQLClient.execute` at time `now`: when the session is
expired or no transport exists, `_login` runs first (its exception, if
any, propagates and the operation is not sent); then the operation is
executed on the current transport. Returns the client state after the
call and the ordered event list, or the login exception. -/
def GraphQLClient.execute (cfg : AppConfig) (now : Nat) (st : ClientState)
    (outcome : LoginOutcome) : Except LoginExc (ClientState × List Event) :=
  if needsLogin now st then
    match GraphQLClient.login cfg now outcome with
    | .error e => .error e
    | .ok st2 => .ok (st2, [Event.login, Event.operation])
  else
    .ok (st, [Event.operation])

/-- A login exchange that succeeds: a non-error status and a non-falsy
`sessionid` cookie. -/
def LoginOutcome.successful : LoginOutcome → Bool
  | .netError _ => false
  | .response status sessionid => !statusIsError status && !cookieFalsy sessionid

/- ### `destroy_tenant` and its confirmation guard -/

/-- What `destroy_tenant` returns: the structured cancellation mapping
(with its `status` and `message` values), or the terminal
response when the mutation ran and the watcher returned. -/
inductive DestroyResult where
  | cancelled (status message : String)
  | watched (r : PollResult)
deriving Repr, DecidableEq

/-- Mirrors `destroy_tenant` (`confirm` defaults to `False` in the
source), with the remote side summarised by the command id the destroy
mutation would return and the successive watcher polls. Yields the
result (`none` while the watcher is still polling), the number of destroy
mutation calls issued, and the number of status polls issued. -/
def destroy_tenant (confirm : Bool) (_cmdId : Int) (polls : List PollResult) :
    Option DestroyResult × Nat × Nat :=
  if !confirm then
    (some (.cancelled "cancelled"
      "Deletion not confirmed. Set \x27confirm=True\x27 to proceed."), 0, 0)
  else
    match check_state_machine polls with
    | none => (none, 1, polls.length)
    | some (r, n, _) => (some (.watched r), 1, n)

/- ### The `modify_tenant_quota` source defects -/

/-- The opening-brace character, `"\x7b"`. -/
def lbrace : Char := Char.ofNat 123

/-- The closing-brace character, `"\x7d"`. -/
def rbrace : Char := Char.ofNat 125

/-- Number of opening braces minus number of closing braces of a string: a
well-formed GraphQL document has balance 0 (and never dips negative). -/
def braceBalance (s : String) : Int :=
  s.data.foldl (fun acc c => if c = lbrace then acc + 1 else if c = rbrace then acc - 1 else acc) 0

/-- The verbatim text of `CHANGE_QUOTA_MUTATION` (source lines 200-209),
the document `modify_tenant_quota` submits. `gql(...)` parses it eagerly
at module load. -/
def CHANGE_QUOTA_MUTATION : String :=
  "\nmutation ChangeQuota($name: String!, $quota: SetQuotaLimit!)\x7b\n  \ttenant\x7b\n setQuota (action: execute,name:$name,quota:$quota)\x7b\n ... on Command \x7b\n  id\n\x7d\n\x7d\n\x7d\n"

/-- The verbatim text of `DESTROY_TENANT_MUTATION` (source lines 211-221),
for comparison: a brace-balanced document. -/
def DESTROY_TENANT_MUTATION : String :=
  "\n    mutation DestroyTenant($name: String!) \x7b\n      tenant \x7b\n        destroy(action: execute, name: $name, destroyData: false) \x7b\n          ... on Command \x7b\n            id\n          \x7d\n        \x7d\n      \x7d\n    \x7d\n"

/-- The function name `modify_tenant_quota` calls at source line 328 to
watch the submitted job. -/
def modifyTenantQuotaWatcherCallee : String := "_check_state_machinecheck_state_machine"

/-- Every function name defined at module level in `src/mymcp.py` (plus
the method names of its classes). -/
def moduleDefinedNames : List String :=
  ["from_env", "_login", "execute", "list_users", "delete_user", "get_errors",
   "list_tenants", "_check_state_machine", "modify_tenant_quota", "destroy_tenant",
   "add_nids_to_tenant", "remove_nids_from_tenant", "create_tenant"]

/- ### Helper lemmas on the quota folds -/

lemma applyKbyte_ne (keys : List Int) (m : Int → Quota) (j : ProjIdQuota) (k : Int)
    (h : j.id ≠ k) : applyKbyte keys m j k = m k := by
  by_cases hmem : j.id ∈ keys <;> simp [applyKbyte, hmem, Ne.symm h]

lemma applyInode_ne (keys : List Int) (m : Int → Quota) (j : ProjIdQuota) (k : Int)
    (h : j.id ≠ k) : applyInode keys m j k = m k := by
  by_cases hmem : j.id ∈ keys <;> simp [applyInode, hmem, Ne.symm h]

lemma foldlKbyte_ne (keys : List Int) (js : List ProjIdQuota) (m : Int → Quota) (k : Int)
    (h : ∀ j ∈ js, j.id ≠ k) : js.foldl (applyKbyte keys) m k = m k := by
  induction js generalizing m with
  | nil => rfl
  | cons j js ih =>
    rw [List.foldl_cons, ih _ (fun x hx => h x (List.mem_cons_of_mem _ hx))]
    exact applyKbyte_ne keys m j k (h j (List.mem_cons_self _ _))

lemma foldlInode_ne (keys : List Int) (js : List ProjIdQuota) (m : Int → Quota) (k : Int)
    (h : ∀ j ∈ js, j.id ≠ k) : js.foldl (applyInode keys) m k = m k := by
  induction js generalizing m with
  | nil => rfl
  | cons j js ih =>
    rw [List.foldl_cons, ih _ (fun x hx => h x (List.mem_cons_of_mem _ hx))]
    exact applyInode_ne keys m j k (h j (List.mem_cons_self _ _))

lemma applyEntry_ne (keys : List Int) (m : Int → Quota) (e : QuotaListEntry) (k : Int)
    (h1 : ∀ j ∈ e.quotas.projids.kbytes, j.id ≠ k)
    (h2 : ∀ j ∈ e.quotas.projids.inodes, j.id ≠ k) : applyEntry keys m e k = m k := by
  unfold applyEntry
  rw [foldlInode_ne _ _ _ _ h2, foldlKbyte_ne _ _ _ _ h1]

lemma foldlEntry_ne (keys : List Int) (qs : List QuotaListEntry) (m : Int → Quota) (k : Int)
    (h : ∀ e ∈ qs, (∀ j ∈ e.quotas.projids.kbytes, j.id ≠ k) ∧
                   (∀ j ∈ e.quotas.projids.inodes, j.id ≠ k)) :
    qs.foldl (applyEntry keys) m k = m k := by
  induction qs generalizing m with
  | nil => rfl
  | cons e qs ih =>
    rw [List.foldl_cons, ih _ (fun x hx => h x (List.mem_cons_of_mem _ hx)),
        applyEntry_ne _ _ _ _ (h e (List.mem_cons_self _ _)).1 (h e (List.mem_cons_self _ _)).2]

lemma applyKbyte_notmem (keys : List Int) (m : Int → Quota) (j : ProjIdQuota)
    (h : j.id ∉ keys) : applyKbyte keys m j = m := by
  simp [applyKbyte, h]

lemma applyInode_notmem (keys : List Int) (m : Int → Quota) (j : ProjIdQuota)
    (h : j.id ∉ keys) : applyInode keys m j = m := by
  simp [applyInode, h]

lemma foldlKbyte_notmem (keys : List Int) (js : List ProjIdQuota) (m : Int → Quota)
    (h : ∀ j ∈ js, j.id ∉ keys) : js.foldl (applyKbyte keys) m = m := by
  induction js generalizing m with
  | nil => rfl
  | cons j js ih =>
    rw [List.foldl_cons, applyKbyte_notmem _ _ _ (h j (List.mem_cons_self _ _)),
        ih _ (fun x hx => h x (List.mem_cons_of_mem _ hx))]

lemma foldlInode_notmem (keys : List Int) (js : List ProjIdQuota) (m : Int → Quota)
    (h : ∀ j ∈ js, j.id ∉ keys) : js.foldl (applyInode keys) m = m := by
  induction js generalizing m with
  | nil => rfl
  | cons j js ih =>
    rw [List.foldl_cons, applyInode_notmem _ _ _ (h j (List.mem_cons_self _ _)),
        ih _ (fun x hx => h x (List.mem_cons_of_mem _ hx))]

lemma applyEntry_notmem (keys : List Int) (m : Int → Quota) (e : QuotaListEntry)
    (h1 : ∀ j ∈ e.quotas.projids.kbytes, j.id ∉ keys)
    (h2 : ∀ j ∈ e.quotas.projids.inodes, j.id ∉ keys) : applyEntry keys m e = m := by
  unfold applyEntry
  rw [foldlKbyte_notmem _ _ _ h1, foldlInode_notmem _ _ _ h2]

lemma foldlKbyte_last (keys : List Int) (m : Int → Quota) (js1 js2 : List ProjIdQuota)
    (j : ProjIdQuota) (hmem : j.id ∈ keys) (hafter : ∀ x ∈ js2, x.id ≠ j.id) :
    (js1 ++ j :: js2).foldl (applyKbyte keys) m j.id =
      { (js1.foldl (applyKbyte keys) m) j.id with
        kbyteHard := j.quota.hard, kbyteSoft := j.quota.soft, kbyteUsed := j.quota.granted } := by
  rw [List.foldl_append, List.foldl_cons, foldlKbyte_ne _ js2 _ _ hafter]
  simp [applyKbyte, hmem]

lemma foldlInode_last (keys : List Int) (m : Int → Quota) (js1 js2 : List ProjIdQuota)
    (j : ProjIdQuota) (hmem : j.id ∈ keys) (hafter : ∀ x ∈ js2, x.id ≠ j.id) :
    (js1 ++ j :: js2).foldl (applyInode keys) m j.id =
      { (js1.foldl (applyInode keys) m) j.id with
        inodeHard := j.quota.hard, inodeSoft := j.quota.soft, inodeUsed := j.quota.granted } := by
  rw [List.foldl_append, List.foldl_cons, foldlInode_ne _ js2 _ _ hafter]
  simp [applyInode, hmem]

/- ### Claim theorems -/

/-- C1: for a job whose successive polls report `n` non-terminal states
followed by a terminal one, `_check_state_machine` emits exactly `n`
progress notifications (one per non-terminal poll, each carrying that
name of the job in that poll), issues exactly `n + 1` status polls, and returns the
full response of the `(n+1)`-th poll. -/
theorem check_state_machine_spec (pre : List PollResult) (t : PollResult)
    (rest : List PollResult)
    (h1 : ∀ r ∈ pre, r.stateMachine.getCmdSummary.state ∉ terminalStates)
    (h2 : t.stateMachine.getCmdSummary.state ∈ terminalStates) :
    check_state_machine (pre ++ t :: rest) =
      some (t, pre.length + 1,
        pre.map (fun r => r.stateMachine.getCmdSummary.name ++ " is still ongoing.")) ∧
    (pre.map (fun r => r.stateMachine.getCmdSummary.name ++ " is still ongoing.")).length
      = pre.length := by
  refine ⟨?_, by simp⟩
  induction pre with
  | nil => simp [check_state_machine, h2]
  | cons r pre ih =>
    have hr : r.stateMachine.getCmdSummary.state ∉ terminalStates :=
      h1 r (List.mem_cons_self _ _)
    have ih2 := ih (fun x hx => h1 x (List.mem_cons_of_mem _ hx))
    simp [check_state_machine, hr, ih2, ongoingMessage]

/-- Witness for C1: two "running" polls then a "completed" poll. -/
theorem check_state_machine_spec_witness :
    check_state_machine
      ([⟨⟨⟨"job", "running", none⟩⟩⟩, ⟨⟨⟨"job", "running", none⟩⟩⟩] ++
        (⟨⟨⟨"job", "completed", none⟩⟩⟩ : PollResult) :: []) =
      some (⟨⟨⟨"job", "completed", none⟩⟩⟩,
        ([⟨⟨⟨"job", "running", none⟩⟩⟩, ⟨⟨⟨"job", "running", none⟩⟩⟩] : List PollResult).length + 1,
        ([⟨⟨⟨"job", "running", none⟩⟩⟩, ⟨⟨⟨"job", "running", none⟩⟩⟩] : List PollResult).map
          (fun r => r.stateMachine.getCmdSummary.name ++ " is still ongoing.")) :=
  (check_state_machine_spec _ _ _ (by decide) (by decide)).1

/-- C7: a job whose first poll already reports a terminal state — also
"failed", "canceled" or "skipped" — makes the watcher return that payload
at once, with a single poll and no progress notification, as a normal
return value (the model never signals an error for terminal states). -/
theorem check_state_machine_terminal_first (t : PollResult) (rest : List PollResult)
    (h : t.stateMachine.getCmdSummary.state ∈ terminalStates) :
    check_state_machine (t :: rest) = some (t, 1, []) := by
  simp [check_state_machine, h]

/-- Witness for C7: a first poll in state "failed". -/
theorem check_state_machine_terminal_first_witness :
    check_state_machine ((⟨⟨⟨"job", "failed", none⟩⟩⟩ : PollResult) :: []) =
      some (⟨⟨⟨"job", "failed", none⟩⟩⟩, 1, []) :=
  check_state_machine_terminal_first _ [] (by decide)

lemma login_of_successful (cfg : AppConfig) (now : Nat) (o : LoginOutcome)
    (h : o.successful = true) :
    ∃ st : ClientState, GraphQLClient.login cfg now o = .ok st ∧
      st.sessionExpiresAt = now + 3600 ∧ st.transport.isNone = false := by
  cases o with
  | netError m => simp [LoginOutcome.successful] at h
  | response s sid =>
    simp only [LoginOutcome.successful, Bool.and_eq_true, Bool.not_eq_true'] at h
    obtain ⟨hs, hc⟩ := h
    refine ⟨{ sessionCookie := some (sid.getD ""), sessionExpiresAt := now + 3600,
              transport := some { url := cfg.url ++ "/graphql",
                                  cookieHeader := "sessionid=" ++ sid.getD "",
                                  verify := cfg.verify_tls, timeout := 30 } }, ?_, rfl, rfl⟩
    simp [GraphQLClient.login, hs, hc]

/-- C2: a fresh client logs in exactly once on the first `execute`, before
the operation; with the session installed at time `T`, every `execute`
strictly before `T + 3600` performs no login (and leaves the state
untouched, so this covers each such call of a sequence), and the first
`execute` at or after `T + 3600` performs exactly one more login. -/
theorem execute_login_schedule (cfg : AppConfig) (T now : Nat) (o1 o2 : LoginOutcome)
    (h1 : o1.successful = true) (h2 : o2.successful = true) :
    ∃ st1 : ClientState,
      GraphQLClient.execute cfg T ClientState.fresh o1 = .ok (st1, [.login, .operation]) ∧
      st1.sessionExpiresAt = T + 3600 ∧
      (now < T + 3600 → GraphQLClient.execute cfg now st1 o2 = .ok (st1, [.operation])) ∧
      (T + 3600 ≤ now → ∃ st2 : ClientState,
        GraphQLClient.execute cfg now st1 o2 = .ok (st2, [.login, .operation]) ∧
        st2.sessionExpiresAt = now + 3600) := by
  obtain ⟨st1, hlog, hexp, htr⟩ := login_of_successful cfg T o1 h1
  refine ⟨st1, ?_, hexp, ?_, ?_⟩
  · have hneed : needsLogin T ClientState.fresh = true := by
      simp [needsLogin, ClientState.fresh]
    simp [GraphQLClient.execute, hneed, hlog]
  · intro hlt
    have hneed : needsLogin now st1 = false := by
      simp [needsLogin, htr, hexp]
      omega
    simp [GraphQLClient.execute, hneed]
  · intro hge
    obtain ⟨st2, hlog2, hexp2, _⟩ := login_of_successful cfg now o2 h2
    have hneed : needsLogin now st1 = true := by
      simp [needsLogin, hexp]
      omega
    refine ⟨st2, ?_, hexp2⟩
    simp [GraphQLClient.execute, hneed, hlog2]

/-- Witness for C2: login at time 0, a call at time 3599 (no login), and
the state of a call at 3600 (one login). -/
theorem execute_login_schedule_witness :
    ∃ st1 : ClientState,
      GraphQLClient.execute ⟨"u", "p", "https://api", true⟩ 0 ClientState.fresh
          (.response 200 (some "tok")) = .ok (st1, [.login, .operation]) ∧
      st1.sessionExpiresAt = 0 + 3600 ∧
      (3599 < 0 + 3600 → GraphQLClient.execute ⟨"u", "p", "https://api", true⟩ 3599 st1
          (.response 200 (some "tok2")) = .ok (st1, [.operation])) ∧
      (0 + 3600 ≤ 3599 → ∃ st2 : ClientState,
        GraphQLClient.execute ⟨"u", "p", "https://api", true⟩ 3599 st1
            (.response 200 (some "tok2")) = .ok (st2, [.login, .operation]) ∧
        st2.sessionExpiresAt = 3599 + 3600) :=
  execute_login_schedule ⟨"u", "p", "https://api", true⟩ 0 3599
    (.response 200 (some "tok")) (.response 200 (some "tok2")) (by decide) (by decide)

/-- C5 counterexample: a login response lacking the `sessionid` cookie and
a network failure raise exceptions of the same Python type — both the
builtin `ConnectionError` — so the missing-token failure is not of an
authentication type distinct from the connectivity type; moreover a
non-success HTTP response raises `httpx.HTTPStatusError`, a different type
than the missing-token failure, so the two "authentication" failures do
not share one type either. -/
theorem login_error_types_counterexample :
    GraphQLClient.login ⟨"u", "p", "https://api", true⟩ 0 (.response 200 none) =
      .error (.connectionError "Login failed: \x27sessionid\x27 cookie not found in response.") ∧
    GraphQLClient.login ⟨"u", "p", "https://api", true⟩ 0 (.netError "boom") =
      .error (.connectionError "Could not connect to the authentication endpoint: boom") ∧
    GraphQLClient.login ⟨"u", "p", "https://api", true⟩ 0 (.response 401 (some "tok")) =
      .error (.httpStatusError 401) ∧
    (LoginExc.connectionError
        "Login failed: \x27sessionid\x27 cookie not found in response.").isConnectionError =
      (LoginExc.connectionError
        "Could not connect to the authentication endpoint: boom").isConnectionError ∧
    (LoginExc.httpStatusError 401).isConnectionError ≠
      (LoginExc.connectionError
        "Login failed: \x27sessionid\x27 cookie not found in response.").isConnectionError := by
  refine ⟨rfl, rfl, ?_, rfl, by decide⟩
  simp [GraphQLClient.login, statusIsError]

/-- C5 amended: `_login` raises `httpx.HTTPStatusError` (carrying the
status) for a non-success response, and the builtin `ConnectionError` both
for a success response lacking the `sessionid` cookie and for wrapped
network failures — the latter two share one exception type, which is
distinct from the HTTP-status one. -/
theorem login_error_taxonomy (cfg : AppConfig) (now : Nat) (s : Nat) (sid : Option String)
    (msg : String) (hs : statusIsError s = true) (hc : cookieFalsy sid = true) :
    GraphQLClient.login cfg now (.response s sid) = .error (.httpStatusError s) ∧
    GraphQLClient.login cfg now (.response 200 sid) =
      .error (.connectionError "Login failed: \x27sessionid\x27 cookie not found in response.") ∧
    GraphQLClient.login cfg now (.netError msg) =
      .error (.connectionError ("Could not connect to the authentication endpoint: " ++ msg)) ∧
    (LoginExc.httpStatusError s).isConnectionError = false ∧
    (LoginExc.connectionError
        "Login failed: \x27sessionid\x27 cookie not found in response.").isConnectionError =
      (LoginExc.connectionError
        ("Could not connect to the authentication endpoint: " ++ msg)).isConnectionError := by
  refine ⟨?_, ?_, rfl, rfl, rfl⟩
  · simp [GraphQLClient.login, hs]
  · simp [GraphQLClient.login, statusIsError, hc]

/-- Witness for C5 amended: status 503 and an absent cookie. -/
theorem login_error_taxonomy_witness :
    GraphQLClient.login ⟨"u", "p", "https://api", true⟩ 7 (.response 503 none) =
      .error (.httpStatusError 503) ∧
    GraphQLClient.login ⟨"u", "p", "https://api", true⟩ 7 (.response 200 none) =
      .error (.connectionError "Login failed: \x27sessionid\x27 cookie not found in response.") ∧
    GraphQLClient.login ⟨"u", "p", "https://api", true⟩ 7 (.netError "boom") =
      .error (.connectionError ("Could not connect to the authentication endpoint: " ++ "boom")) ∧
    (LoginExc.httpStatusError 503).isConnectionError = false ∧
    (LoginExc.connectionError
        "Login failed: \x27sessionid\x27 cookie not found in response.").isConnectionError =
      (LoginExc.connectionError
        ("Could not connect to the authentication endpoint: " ++ "boom")).isConnectionError :=
  login_error_taxonomy ⟨"u", "p", "https://api", true⟩ 7 503 none "boom" (by decide) (by decide)

/-- C6: when the login response lacks the `sessionid` cookie, `_login`
raises and leaves the client state exactly as it was (no cookie, no
expiry, no transport installed), so a subsequent `execute` on that state —
when fresh — attempts a fresh login before the operation. -/
theorem login_missing_token_leaves_state (cfg : AppConfig) (now now2 : Nat)
    (st : ClientState) (s : Nat) (sid : Option String) (o2 : LoginOutcome)
    (hs : statusIsError s = false) (hc : cookieFalsy sid = true)
    (h2 : o2.successful = true) :
    GraphQLClient.loginStep cfg now st (.response s sid) =
      (st, some (.connectionError "Login failed: \x27sessionid\x27 cookie not found in response.")) ∧
    (st = ClientState.fresh → ∃ st2 : ClientState,
      GraphQLClient.execute cfg now2 st o2 = .ok (st2, [.login, .operation])) := by
  constructor
  · simp [GraphQLClient.loginStep, GraphQLClient.login, hs, hc]
  · rintro rfl
    obtain ⟨st2, hlog, _, _⟩ := login_of_successful cfg now2 o2 h2
    have hneed : needsLogin now2 ClientState.fresh = true := by
      simp [needsLogin, ClientState.fresh]
    exact ⟨st2, by simp [GraphQLClient.execute, hneed, hlog]⟩

/-- Witness for C6: a fresh client, a 200 response without the cookie,
then a successful retry outcome. -/
theorem login_missing_token_leaves_state_witness :
    GraphQLClient.loginStep ⟨"u", "p", "https://api", true⟩ 5 ClientState.fresh
        (.response 200 none) =
      (ClientState.fresh,
        some (.connectionError "Login failed: \x27sessionid\x27 cookie not found in response.")) ∧
    (ClientState.fresh = ClientState.fresh → ∃ st2 : ClientState,
      GraphQLClient.execute ⟨"u", "p", "https://api", true⟩ 6 ClientState.fresh
          (.response 200 (some "tok")) = .ok (st2, [.login, .operation])) :=
  login_missing_token_leaves_state ⟨"u", "p", "https://api", true⟩ 5 6 ClientState.fresh
    200 none (.response 200 (some "tok")) (by decide) (by decide) (by decide)

lemma map_fst_pair {α β : Type} (l : List α) (f : α → β) :
    (l.map (fun a => (a, f a))).map Prod.fst = l := by
  induction l with
  | nil => rfl
  | cons a l ih => simp only [List.map_cons, ih]

/-- C3: `list_tenants` returns the tenants of the listing exactly once and
in order, each paired with a quota record; a tenant matched by no quota
entry keeps the all-zero default; a tenant matched by a kbyte entry and an
inode entry gets the kbyte fields from the hard/soft/granted of the kbyte
entry and the inode fields independently from those of the inode entry;
and the concrete scenario of the spec (tenants with idOffset 1 and 2, a single kbyte
entry for id 1 with 1000/900/500) evaluates as the claim states. -/
theorem list_tenants_spec (ts : List Tenant) (qs : List QuotaListEntry) (t : Tenant)
    (eid : Int) (jk jin : ProjIdQuota)
    (ht : t ∈ ts)
    (hjk : jk.id = t.idOffset) (hjin : jin.id = t.idOffset)
    (hnok : ∀ e ∈ qs, ∀ j ∈ e.quotas.projids.kbytes, j.id ≠ t.idOffset)
    (hnoi : ∀ e ∈ qs, ∀ j ∈ e.quotas.projids.inodes, j.id ≠ t.idOffset) :
    (list_tenants ts qs).map Prod.fst = ts ∧
    (t, ({} : Quota)) ∈ list_tenants ts qs ∧
    (t, ({ kbyteHard := jk.quota.hard, kbyteSoft := jk.quota.soft, kbyteUsed := jk.quota.granted,
           inodeHard := jin.quota.hard, inodeSoft := jin.quota.soft,
           inodeUsed := jin.quota.granted } : Quota))
      ∈ list_tenants ts [⟨eid, ⟨⟨[jk], [jin]⟩⟩⟩] ∧
    list_tenants
      [⟨"t1", "/fs1", 1, []⟩, ⟨"t2", "/fs2", 2, []⟩]
      [⟨0, ⟨⟨[⟨1, ⟨1000, 900, 500⟩⟩], []⟩⟩⟩] =
      [(⟨"t1", "/fs1", 1, []⟩, { kbyteHard := 1000, kbyteSoft := 900, kbyteUsed := 500 }),
       (⟨"t2", "/fs2", 2, []⟩, {})] := by
  have hmem : t.idOffset ∈ tenantKeys ts := List.mem_map_of_mem _ ht
  refine ⟨?_, ?_, ?_, by decide⟩
  · exact map_fst_pair ts _
  · refine List.mem_map.mpr ⟨t, ht, ?_⟩
    have hm : (qs.foldl (applyEntry (tenantKeys ts)) (fun _ => ({} : Quota))) t.idOffset
        = ({} : Quota) :=
      foldlEntry_ne _ _ _ _ (fun e he => ⟨hnok e he, hnoi e he⟩)
    simp [list_tenants, hm]
  · refine List.mem_map.mpr ⟨t, ht, ?_⟩
    simp only [list_tenants, List.foldl_cons, List.foldl_nil, applyEntry]
    simp [applyKbyte, applyInode, hjk, hjin, hmem]

/-- Witness for C3: tenant 1 of the spec scenario, an empty quota listing
for the no-match part, and one kbyte plus one inode entry for id 1. -/
theorem list_tenants_spec_witness :
    (list_tenants [⟨"t1", "/fs1", 1, []⟩, ⟨"t2", "/fs2", 2, []⟩] []).map Prod.fst =
      [⟨"t1", "/fs1", 1, []⟩, ⟨"t2", "/fs2", 2, []⟩] ∧
    ((⟨"t1", "/fs1", 1, []⟩ : Tenant), ({} : Quota)) ∈
      list_tenants [⟨"t1", "/fs1", 1, []⟩, ⟨"t2", "/fs2", 2, []⟩] [] ∧
    ((⟨"t1", "/fs1", 1, []⟩ : Tenant),
        ({ kbyteHard := (⟨1, ⟨10, 20, 30⟩⟩ : ProjIdQuota).quota.hard,
           kbyteSoft := (⟨1, ⟨10, 20, 30⟩⟩ : ProjIdQuota).quota.soft,
           kbyteUsed := (⟨1, ⟨10, 20, 30⟩⟩ : ProjIdQuota).quota.granted,
           inodeHard := (⟨1, ⟨40, 50, 60⟩⟩ : ProjIdQuota).quota.hard,
           inodeSoft := (⟨1, ⟨40, 50, 60⟩⟩ : ProjIdQuota).quota.soft,
           inodeUsed := (⟨1, ⟨40, 50, 60⟩⟩ : ProjIdQuota).quota.granted } : Quota)) ∈
      list_tenants [⟨"t1", "/fs1", 1, []⟩, ⟨"t2", "/fs2", 2, []⟩]
        [⟨0, ⟨⟨[⟨1, ⟨10, 20, 30⟩⟩], [⟨1, ⟨40, 50, 60⟩⟩]⟩⟩⟩] ∧
    list_tenants
      [⟨"t1", "/fs1", 1, []⟩, ⟨"t2", "/fs2", 2, []⟩]
      [⟨0, ⟨⟨[⟨1, ⟨1000, 900, 500⟩⟩], []⟩⟩⟩] =
      [(⟨"t1", "/fs1", 1, []⟩, { kbyteHard := 1000, kbyteSoft := 900, kbyteUsed := 500 }),
       (⟨"t2", "/fs2", 2, []⟩, {})] :=
  list_tenants_spec [⟨"t1", "/fs1", 1, []⟩, ⟨"t2", "/fs2", 2, []⟩] [] ⟨"t1", "/fs1", 1, []⟩
    0 ⟨1, ⟨10, 20, 30⟩⟩ ⟨1, ⟨40, 50, 60⟩⟩
    (by decide) (by decide) (by decide) (by decide) (by decide)

/-- C10: a quota-list entry all of whose per-id sub-entries match no tenant
`idOffset` is silently ignored — removing it from the listing leaves the
output of the join unchanged — and when several kbyte (resp. inode) sub-entries
carry the same id, the one occurring last in iteration order determines
the kbyte (resp. inode) fields, overwriting what earlier ones wrote. -/
theorem quota_join_unmatched_and_last_wins
    (ts : List Tenant) (pre post : List QuotaListEntry) (e : QuotaListEntry)
    (keys : List Int) (m : Int → Quota) (js1 js2 : List ProjIdQuota) (j : ProjIdQuota)
    (h1 : ∀ x ∈ e.quotas.projids.kbytes, x.id ∉ tenantKeys ts)
    (h2 : ∀ x ∈ e.quotas.projids.inodes, x.id ∉ tenantKeys ts)
    (h3 : j.id ∈ keys) (h4 : ∀ x ∈ js2, x.id ≠ j.id) :
    list_tenants ts (pre ++ e :: post) = list_tenants ts (pre ++ post) ∧
    ((js1 ++ j :: js2).foldl (applyKbyte keys) m) j.id =
      { (js1.foldl (applyKbyte keys) m) j.id with
        kbyteHard := j.quota.hard, kbyteSoft := j.quota.soft, kbyteUsed := j.quota.granted } ∧
    ((js1 ++ j :: js2).foldl (applyInode keys) m) j.id =
      { (js1.foldl (applyInode keys) m) j.id with
        inodeHard := j.quota.hard, inodeSoft := j.quota.soft, inodeUsed := j.quota.granted } := by
  refine ⟨?_, foldlKbyte_last keys m js1 js2 j h3 h4, foldlInode_last keys m js1 js2 j h3 h4⟩
  have hfold : ∀ m0 : Int → Quota,
      (pre ++ e :: post).foldl (applyEntry (tenantKeys ts)) m0 =
      (pre ++ post).foldl (applyEntry (tenantKeys ts)) m0 := by
    intro m0
    rw [List.foldl_append, List.foldl_cons, applyEntry_notmem _ _ _ h1 h2, List.foldl_append]
  simp only [list_tenants, hfold]

/-- Witness for C10: one tenant with idOffset 1, one fully unmatched
entry (ids 5 and 6), and duplicate-id kbyte/inode folds where the last
id-1 element wins. -/
theorem quota_join_unmatched_and_last_wins_witness :
    list_tenants [⟨"t1", "/fs", 1, []⟩]
        ([] ++ (⟨9, ⟨⟨[⟨5, ⟨1, 1, 1⟩⟩], [⟨6, ⟨2, 2, 2⟩⟩]⟩⟩⟩ : QuotaListEntry) :: []) =
      list_tenants [⟨"t1", "/fs", 1, []⟩] ([] ++ []) ∧
    ((([⟨1, ⟨1, 2, 3⟩⟩] : List ProjIdQuota) ++
        (⟨1, ⟨10, 20, 30⟩⟩ : ProjIdQuota) :: [⟨2, ⟨7, 8, 9⟩⟩]).foldl
        (applyKbyte [1]) (fun _ => {})) (⟨1, ⟨10, 20, 30⟩⟩ : ProjIdQuota).id =
      { (([⟨1, ⟨1, 2, 3⟩⟩] : List ProjIdQuota).foldl (applyKbyte [1]) (fun _ => {}))
          (⟨1, ⟨10, 20, 30⟩⟩ : ProjIdQuota).id with
        kbyteHard := (⟨1, ⟨10, 20, 30⟩⟩ : ProjIdQuota).quota.hard,
        kbyteSoft := (⟨1, ⟨10, 20, 30⟩⟩ : ProjIdQuota).quota.soft,
        kbyteUsed := (⟨1, ⟨10, 20, 30⟩⟩ : ProjIdQuota).quota.granted } ∧
    ((([⟨1, ⟨1, 2, 3⟩⟩] : List ProjIdQuota) ++
        (⟨1, ⟨10, 20, 30⟩⟩ : ProjIdQuota) :: [⟨2, ⟨7, 8, 9⟩⟩]).foldl
        (applyInode [1]) (fun _ => {})) (⟨1, ⟨10, 20, 30⟩⟩ : ProjIdQuota).id =
      { (([⟨1, ⟨1, 2, 3⟩⟩] : List ProjIdQuota).foldl (applyInode [1]) (fun _ => {}))
          (⟨1, ⟨10, 20, 30⟩⟩ : ProjIdQuota).id with
        inodeHard := (⟨1, ⟨10, 20, 30⟩⟩ : ProjIdQuota).quota.hard,
        inodeSoft := (⟨1, ⟨10, 20, 30⟩⟩ : ProjIdQuota).quota.soft,
        inodeUsed := (⟨1, ⟨10, 20, 30⟩⟩ : ProjIdQuota).quota.granted } :=
  quota_join_unmatched_and_last_wins [⟨"t1", "/fs", 1, []⟩] [] []
    (⟨9, ⟨⟨[⟨5, ⟨1, 1, 1⟩⟩], [⟨6, ⟨2, 2, 2⟩⟩]⟩⟩⟩ : QuotaListEntry) [1]
    (fun _ => ({} : Quota))
    ([⟨1, ⟨1, 2, 3⟩⟩] : List ProjIdQuota) ([⟨2, ⟨7, 8, 9⟩⟩] : List ProjIdQuota)
    (⟨1, ⟨10, 20, 30⟩⟩ : ProjIdQuota)
    (by decide) (by decide) (by decide) (by decide)

/-- C8: `destroy_tenant` without confirmation returns the structured
"cancelled" mapping with its message, issues zero destroy-mutation calls
and zero status polls; and the number of destroy-mutation calls is 1
exactly when `confirm` is true (the mutation only runs when confirmed). -/
theorem destroy_tenant_unconfirmed (cmdId : Int) (polls : List PollResult)
    (confirm : Bool) :
    destroy_tenant false cmdId polls =
      (some (.cancelled "cancelled"
        "Deletion not confirmed. Set \x27confirm=True\x27 to proceed."), 0, 0) ∧
    (destroy_tenant confirm cmdId polls).2.1 = (if confirm then 1 else 0) := by
  refine ⟨rfl, ?_⟩
  cases confirm with
  | false => rfl
  | true =>
    simp only [destroy_tenant, Bool.not_true, Bool.false_eq_true, if_false, if_true]
    cases h : check_state_machine polls with
    | none => rfl
    | some v => rfl

/-- C9: with all required variables present, `from_env` succeeds and sets
`verify_tls` to true exactly when the lowercased `TLSVERIFY` value is
"true" or "1"; an unset `TLSVERIFY` defaults to verification enabled; and
"yes", "on", "enabled" all disable verification. -/
theorem tlsverify_semantics (v u p url : String) :
    (AppConfig.from_env ⟨some u, some p, some url, some v⟩ =
      .ok ⟨u, p, url, verifyTlsOfEnv (some v)⟩) ∧
    (verifyTlsOfEnv (some v) = true ↔ (pyLower v = "true" ∨ pyLower v = "1")) ∧
    AppConfig.from_env ⟨some u, some p, some url, none⟩ = .ok ⟨u, p, url, true⟩ ∧
    verifyTlsOfEnv (some "yes") = false ∧
    verifyTlsOfEnv (some "on") = false ∧
    verifyTlsOfEnv (some "enabled") = false := by
  have hnone : verifyTlsOfEnv none = true := by decide
  refine ⟨rfl, ?_, ?_, by decide, by decide, by decide⟩
  · simp [verifyTlsOfEnv]
  · simp [AppConfig.from_env, hnone]

set_option maxRecDepth 20000 in
/-- C4: `modify_tenant_quota` cannot return the terminal status of the watcher:
its submitted document `CHANGE_QUOTA_MUTATION` is brace-unbalanced (one
unclosed brace, so `gql(...)` rejects it at module load), unlike e.g.
`DESTROY_TENANT_MUTATION`; and the name it calls to watch the job,
`_check_state_machinecheck_state_machine`, is defined nowhere in the
module (the actual name of the watcher is `_check_state_machine`), so the call
raises `NameError` instead of returning. -/
theorem modify_tenant_quota_defects :
    braceBalance CHANGE_QUOTA_MUTATION = 1 ∧
    braceBalance DESTROY_TENANT_MUTATION = 0 ∧
    modifyTenantQuotaWatcherCallee ∉ moduleDefinedNames ∧
    "_check_state_machine" ∈ moduleDefinedNames := by
  refine ⟨by decide, by decide, by decide, by decide⟩
